import Mathlib

/-!
Verification of the journaling frontend: DateKey derivation and sidebar
grouping (SharedSidebar), entry filters (Journal/Mood pages), the
summary-generation flow with its client-side cache (Journal and Mood
pages, lazy accordion variant), the sidebar selection toggle, and the
API-client date normalization.

Modelling conventions:
* An entry timestamp (`created_at`) is the epoch instant in milliseconds
  (an `Int`), the value `new Date(entry.created_at).getTime()` denotes.
* A viewer timezone is its UTC offset in minutes; `toLocaleDateString`
  maps a timestamp to the calendar day of that timezone, represented by
  its day index (days since the epoch).  The fixed display timezone
  `Asia/Kolkata` is UTC+05:30, offset 330.
* The locale-formatted date string and the calendar day it denotes are in
  bijection for a fixed locale, so DateKeys are represented by the day
  index wherever the code only produces, compares, sorts or parses them.
  The API-client date reformatting (which manipulates the string itself)
  is modelled over `List Char` instead.
-/

/-- Journal entry as delivered by the backend (`JournalEntry` in the API
client); `created_at` is modelled as the epoch instant in milliseconds. -/
structure JournalEntryData where
  id : Nat
  content : String
  ai_response : Option String
  created_at : Int
deriving DecidableEq, Repr

/-- Mood entry as delivered by the backend (`Mood` in the API client). -/
structure MoodData where
  id : Nat
  mood_score : Nat
  mood_label : String
  notes : Option String
  created_at : Int
deriving DecidableEq, Repr

/-- Calendar day index of a timestamp in a timezone given by its UTC
offset in minutes: the semantics of
`new Date(ts).toLocaleDateString(...)` restricted to the calendar day it
renders. -/
def dateKeyLocal (tzOffsetMin : Int) (tsMs : Int) : Int :=
  (tsMs + tzOffsetMin * 60000).fdiv 86400000

/-- UTC offset of the fixed display timezone `Asia/Kolkata` (IST), in
minutes. -/
def istOffsetMinutes : Int := 330

/-- DateKey derivation used by the entry filters:
`toLocaleDateString` with the en-IN locale and the Asia/Kolkata timezone,
a function of the timestamp and the fixed IST timezone only. -/
def dateKeyIST (tsMs : Int) : Int :=
  dateKeyLocal istOffsetMinutes tsMs

/-- First-occurrence deduplication, the semantics of
`Array.from(new Set(dates))` (JS `Set` preserves insertion order). -/
def setDedupAux (seen : List Int) : List Int → List Int
  | [] => []
  | a :: l => if a ∈ seen then setDedupAux seen l else a :: setDedupAux (a :: seen) l

/-- Deduplication entry point (`Array.from(new Set(dates))`). -/
def setDedup (l : List Int) : List Int :=
  setDedupAux [] l

/-- Descending sort by the parsed date value: the order the comparator
`(a, b) => new Date(b).getTime() - new Date(a).getTime()` produces in the
regime where `new Date(key)` actually parses the rendered key (see
`jsSortByParsedDate` for the full comparator semantics including the
regime where it does not). -/
def sortDesc (l : List Int) : List Int :=
  List.insertionSort (fun a b => a ≥ b) l

/-- SortCompare value of the comparator
`(a, b) => new Date(b).getTime() - new Date(a).getTime()` as
`Array.prototype.sort` consumes it.  Whether `new Date` can re-parse a
rendered DateKey is a property of the locale format, uniform over all
keys of one viewer environment, hence the `parseableLocale` flag: in a
re-parseable format (such as the default en-US M/D/YYYY) the comparator
is the numeric difference of the parsed values, order-isomorphic to the
difference of the day indices; in a format `new Date` rejects (such as
DD/MM/YYYY of en-GB or en-IN) both `getTime()` calls are NaN, the
subtraction is NaN, and SortCompare turns NaN into +0. -/
def sortCompareParsedDate (parseableLocale : Bool) (a b : Int) : Int :=
  if parseableLocale then b - a else 0

/-- `Array.prototype.sort` under the two comparator regimes of
`sortCompareParsedDate`: a re-parseable locale gives a consistent
numeric comparator and the sort yields the strictly descending order of
the parsed values; an unparseable locale makes every comparison +0, and
the (stable, ES2019) sort leaves the array in its original order. -/
def jsSortByParsedDate (parseableLocale : Bool) (l : List Int) : List Int :=
  if parseableLocale then sortDesc l else l

/-- Sidebar date grouping `getUniqueDates` (SharedSidebar) in the
re-parseable-locale regime: maps every entry through
`new Date(entry.created_at).toLocaleDateString()` — the locale and
timezone of the viewer, hence the `viewerTz` parameter — then
deduplicates and sorts descending by parsed date value
(`getUniqueDatesEnv` is the same function with the locale regime
explicit; `getUniqueDatesEnv tz true = getUniqueDates tz`). -/
def getUniqueDates (viewerTz : Int) (entries : List JournalEntryData) : List Int :=
  sortDesc (setDedup (entries.map (fun e => dateKeyLocal viewerTz e.created_at)))

/-- Sidebar date grouping `getUniqueDates` in a full viewer environment:
the timezone offset and the re-parseability of the locale date format
both come from the viewer. -/
def getUniqueDatesEnv (viewerTz : Int) (parseableLocale : Bool)
    (entries : List JournalEntryData) : List Int :=
  jsSortByParsedDate parseableLocale
    (setDedup (entries.map (fun e => dateKeyLocal viewerTz e.created_at)))

/-- Journal page filter `getSelectedDateEntries`: with no selection the
full list is returned; otherwise the entries whose IST DateKey equals the
selection. -/
def getSelectedDateEntries (selectedDate : Option Int) (entries : List JournalEntryData) :
    List JournalEntryData :=
  match selectedDate with
  | none => entries
  | some d => entries.filter (fun e => dateKeyIST e.created_at = d)

/-- Mood page filter `getSelectedDateMoods`, same shape as the journal
filter. -/
def getSelectedDateMoods (selectedDate : Option Int) (moods : List MoodData) :
    List MoodData :=
  match selectedDate with
  | none => moods
  | some d => moods.filter (fun m => dateKeyIST m.created_at = d)

lemma mem_setDedupAux {b : Int} : ∀ {seen l : List Int},
    b ∈ setDedupAux seen l ↔ b ∈ l ∧ b ∉ seen := by
  intro seen l
  induction l generalizing seen with
  | nil => simp [setDedupAux]
  | cons a l ih =>
    by_cases ha : a ∈ seen
    · simp only [setDedupAux, if_pos ha, ih, List.mem_cons]
      constructor
      · rintro ⟨hl, hs⟩; exact ⟨Or.inr hl, hs⟩
      · rintro ⟨hab | hl, hs⟩
        · exact absurd (hab ▸ ha) hs
        · exact ⟨hl, hs⟩
    · simp only [setDedupAux, if_neg ha, List.mem_cons, ih]
      by_cases hba : b = a
      · subst hba; tauto
      · tauto

lemma mem_setDedup {b : Int} {l : List Int} : b ∈ setDedup l ↔ b ∈ l := by
  simp [setDedup, mem_setDedupAux]

lemma nodup_setDedupAux : ∀ {seen l : List Int}, (setDedupAux seen l).Nodup := by
  intro seen l
  induction l generalizing seen with
  | nil => simp [setDedupAux]
  | cons a l ih =>
    by_cases ha : a ∈ seen
    · simpa [setDedupAux, if_pos ha] using ih
    · simp only [setDedupAux, if_neg ha]
      exact List.nodup_cons.mpr
        ⟨fun hmem => (mem_setDedupAux.mp hmem).2 (List.mem_cons_self a _), ih⟩

lemma nodup_setDedup {l : List Int} : (setDedup l).Nodup :=
  nodup_setDedupAux

lemma sorted_ge_getUniqueDates (tz : Int) (l : List JournalEntryData) :
    (getUniqueDates tz l).Sorted (fun a b => a ≥ b) :=
  List.sorted_insertionSort _ _

lemma nodup_getUniqueDates (tz : Int) (l : List JournalEntryData) :
    (getUniqueDates tz l).Nodup :=
  ((List.perm_insertionSort _ _).nodup_iff).mpr nodup_setDedup

lemma sorted_gt_getUniqueDates (tz : Int) (l : List JournalEntryData) :
    (getUniqueDates tz l).Sorted (fun a b => a > b) :=
  ((sorted_ge_getUniqueDates tz l).and (nodup_getUniqueDates tz l)).imp
    (fun h => lt_of_le_of_ne h.1 (Ne.symm h.2))

lemma mem_getUniqueDates {tz : Int} {l : List JournalEntryData} {k : Int} :
    k ∈ getUniqueDates tz l ↔ ∃ e ∈ l, dateKeyLocal tz e.created_at = k := by
  unfold getUniqueDates sortDesc
  rw [(List.perm_insertionSort _ _).mem_iff, mem_setDedup, List.mem_map]

lemma getUniqueDates_perm (tz : Int) {l1 l2 : List JournalEntryData} (hp : l1.Perm l2) :
    getUniqueDates tz l1 = getUniqueDates tz l2 := by
  have hmap := hp.map (fun e => dateKeyLocal tz e.created_at)
  have hd : (setDedup (l1.map (fun e => dateKeyLocal tz e.created_at))).Perm
      (setDedup (l2.map (fun e => dateKeyLocal tz e.created_at))) := by
    refine (List.perm_ext_iff_of_nodup nodup_setDedup nodup_setDedup).mpr ?_
    intro a
    rw [mem_setDedup, mem_setDedup, hmap.mem_iff]
  have hperm : (getUniqueDates tz l1).Perm (getUniqueDates tz l2) :=
    ((List.perm_insertionSort _ _).trans hd).trans (List.perm_insertionSort _ _).symm
  exact List.eq_of_perm_of_sorted hperm
    (List.sorted_insertionSort _ _) (List.sorted_insertionSort _ _)

lemma jsSortByParsedDate_comparator (l : List Int) :
    (jsSortByParsedDate true l).Pairwise (fun a b => sortCompareParsedDate true a b ≤ 0) ∧
    jsSortByParsedDate false l = l := by
  constructor
  · have h : (sortDesc l).Sorted (fun a b => a ≥ b) := List.sorted_insertionSort _ _
    exact h.imp (fun hab => by simpa [sortCompareParsedDate] using sub_nonpos.mpr hab)
  · rfl

/-- Entry on 2024-01-15 (IST day 19737), midnight UTC. -/
def c5e1 : JournalEntryData := ⟨1, "A", none, 1705276800000⟩

/-- Second entry on the same IST calendar day, one hour later. -/
def c5e2 : JournalEntryData := ⟨2, "B", none, 1705280400000⟩

/-- Entry on 2024-01-16 (IST day 19738). -/
def c5e3 : JournalEntryData := ⟨3, "C", none, 1705363200000⟩

/-- C5 (counterexample): in a viewer environment whose locale renders
DD/MM/YYYY — the en-GB/en-IN family, the very format the display layer
uses elsewhere — `new Date(key)` is Invalid Date, the comparator returns
NaN (treated as +0 by SortCompare), and the stable sort leaves the
deduplicated keys in first-occurrence order: with the 2024-01-15 entry
listed first the output is ascending, not strictly descending, and the
two input orders of the same entries yield different outputs. -/
theorem c5_counterexample :
    getUniqueDatesEnv istOffsetMinutes false [c5e1, c5e3] = [19737, 19738] ∧
    ¬ (getUniqueDatesEnv istOffsetMinutes false [c5e1, c5e3]).Sorted (fun a b => a > b) ∧
    getUniqueDatesEnv istOffsetMinutes false [c5e1, c5e3]
      ≠ getUniqueDatesEnv istOffsetMinutes false [c5e3, c5e1] := by decide

/-- C5 (amended): `getUniqueDates` always returns the distinct DateKeys
of the entries — no duplicates, deterministic, empty for the empty list.
When the viewer locale renders dates in a form `new Date` re-parses (the
default en-US form), the keys are additionally sorted strictly
descending by parsed calendar-date value, independently of the input
order; when it does not (DD/MM/YYYY locales), the NaN comparator makes
every comparison +0, the stable sort degrades to the identity, and the
keys stay in first-occurrence order of the input. -/
theorem c5_date_grouping (tz : Int) (p : Bool) (l1 l2 : List JournalEntryData)
    (hp : l1.Perm l2) :
    (getUniqueDatesEnv tz p l1).Nodup ∧
    (∀ k, k ∈ getUniqueDatesEnv tz p l1 ↔ ∃ e ∈ l1, dateKeyLocal tz e.created_at = k) ∧
    getUniqueDatesEnv tz p [] = [] ∧
    getUniqueDatesEnv tz p l1 = getUniqueDatesEnv tz p l1 ∧
    (getUniqueDatesEnv tz true l1).Sorted (fun a b => a > b) ∧
    getUniqueDatesEnv tz true l1 = getUniqueDatesEnv tz true l2 ∧
    getUniqueDatesEnv tz false l1
      = setDedup (l1.map (fun e => dateKeyLocal tz e.created_at)) := by
  refine ⟨?_, ?_, ?_, rfl, ?_, ?_, rfl⟩
  · cases p
    · exact nodup_setDedup
    · exact nodup_getUniqueDates tz l1
  · intro k
    cases p
    · exact mem_setDedup.trans List.mem_map
    · exact mem_getUniqueDates
  · cases p <;> rfl
  · exact sorted_gt_getUniqueDates tz l1
  · exact getUniqueDates_perm tz hp

/-- Witness for the amended C5, instantiating the spec §8 scenario in a
re-parseable-locale environment: two orders of the same three entries
group to [2024-01-16, 2024-01-15] (day indices [19738, 19737]). -/
theorem c5_date_grouping_witness :
    getUniqueDatesEnv istOffsetMinutes true [c5e1, c5e2, c5e3]
      = getUniqueDatesEnv istOffsetMinutes true [c5e3, c5e1, c5e2] ∧
    getUniqueDatesEnv istOffsetMinutes true [c5e1, c5e2, c5e3] = [19738, 19737] :=
  ⟨(c5_date_grouping istOffsetMinutes true [c5e1, c5e2, c5e3] [c5e3, c5e1, c5e2]
      (by decide)).2.2.2.2.2.1, by decide⟩

/-- C6: the entry filters return the whole list unchanged for a null
selection, and for a non-null key exactly the order-preserving sublist of
entries whose IST DateKey equals the key; the input list is not modified
(the filters are pure functions of it). -/
theorem c6_entry_filter (entries : List JournalEntryData) (moods : List MoodData) (k : Int) :
    getSelectedDateEntries none entries = entries ∧
    getSelectedDateMoods none moods = moods ∧
    (getSelectedDateEntries (some k) entries).Sublist entries ∧
    (∀ e, e ∈ getSelectedDateEntries (some k) entries ↔
        e ∈ entries ∧ dateKeyIST e.created_at = k) ∧
    (getSelectedDateMoods (some k) moods).Sublist moods ∧
    (∀ m, m ∈ getSelectedDateMoods (some k) moods ↔
        m ∈ moods ∧ dateKeyIST m.created_at = k) := by
  refine ⟨rfl, rfl, List.filter_sublist _, fun e => ?_, List.filter_sublist _, fun m => ?_⟩ <;>
    simp [getSelectedDateEntries, getSelectedDateMoods, List.mem_filter]

/-- Timestamp 2024-01-15T19:00:00Z — after the IST day boundary (18:30
UTC) but before the UTC day boundary, so the calendar day depends on the
timezone used to render it. -/
def c2ts : Int := 19737 * 86400000 + 19 * 3600000

/-- Single entry used to evaluate the sidebar grouping for C2. -/
def c2entry : JournalEntryData := ⟨1, "A", none, c2ts⟩

/-- C2 (evaluation at the failing input): the sidebar `getUniqueDates`
derives the DateKey with the viewer-local `toLocaleDateString()` (no
locale or timezone argument), so a UTC viewer (offset 0) and the fixed
IST display derivation (offset 330) assign the same entry different
DateKeys; consequently the sidebar grouping disagrees with the IST-pinned
entry filter, which finds no entry under the key listed by the sidebar of
the UTC viewer. -/
theorem c2_viewer_dependence :
    dateKeyLocal 0 c2ts ≠ dateKeyLocal istOffsetMinutes c2ts ∧
    getUniqueDates 0 [c2entry] ≠ getUniqueDates istOffsetMinutes [c2entry] ∧
    dateKeyIST c2ts = 19738 ∧
    getUniqueDates 0 [c2entry] = [19737] ∧
    getSelectedDateEntries (some 19737) [c2entry] = [] := by decide

/-- Response of a successful `/summary/generate` call (`DailySummary`
in the API client; `id` and `date` omitted as the flow never reads
them). -/
structure DailySummaryResp where
  summary : String
deriving DecidableEq, Repr

/-- Cached summary: the response with the `timestamp: Date.now()` field
the flow adds before the cache write. -/
structure SummaryRecord where
  summary : String
  timestamp : Nat
deriving DecidableEq, Repr

/-- Component state of the Journal page (lazy accordion variant):
`selectedDate`, the accordion/loading/error state, the summary cache and
the per-key last-entry-mutation stamps, plus two modelling devices for
the asynchronous backend calls: `pending` holds, for every request still
in flight, the `selectedDate` value its closure captured at issue time,
and `issued` is the append-only log of every backend generation call
made. -/
structure JState where
  selectedDate : Option String
  expanded : Bool
  summariesLoading : Bool
  isGenerating : Bool
  summaryError : Option String
  dailySummary : Option SummaryRecord
  summaryCache : String → Option SummaryRecord
  lastEntryUpdate : String → Option Nat
  pending : List (Option String)
  issued : List (Option String)

/-- Initial state on page load: nothing selected, nothing cached. -/
def jInit : JState :=
  { selectedDate := none, expanded := false, summariesLoading := false,
    isGenerating := false, summaryError := none, dailySummary := none,
    summaryCache := fun _ => none, lastEntryUpdate := fun _ => none,
    pending := [], issued := [] }

/-- Staleness predicate `shouldRegenerateSummary`: regenerate when no
date is selected, no record is cached, no mutation stamp exists, or the
stamp postdates the generation time of the cached record. -/
def shouldRegenerateSummary (s : JState) (date : Option String) : Bool :=
  match date with
  | none => true
  | some d =>
    match s.summaryCache d, s.lastEntryUpdate d with
    | none, _ => true
    | some _, none => true
    | some c, some lu => lu > c.timestamp

/-- Effect on `[selectedDate, summaryCache]`: load the cached summary for
the new date (keeping the accordion expanded) or clear and collapse, and
reset `isGenerating`. -/
def loadCachedEffect (s : JState) : JState :=
  match s.selectedDate with
  | some d =>
    match s.summaryCache d with
    | some r => { s with dailySummary := some r, expanded := true, isGenerating := false }
    | none => { s with dailySummary := none, expanded := false, isGenerating := false }
  | none => { s with dailySummary := none, expanded := false, isGenerating := false }

/-- Synchronous prefix of `generateSummary` up to the `await`: the
in-flight guard, the loading flags, and the issue of the backend call,
whose closure captures the current `selectedDate`. -/
def generateSummaryIssue (s : JState) : JState :=
  if s.isGenerating then s
  else
    { s with isGenerating := true, summariesLoading := true, summaryError := none,
             pending := s.pending ++ [s.selectedDate],
             issued := s.issued ++ [s.selectedDate] }

/-- Continuation of `generateSummary` after a successful response for the
request whose closure captured `sel`: stamp the response with the current
time, write the cache under the captured key (if any), display it, keep
the accordion expanded, clear the loading flags; a cache write re-runs
the `[selectedDate, summaryCache]` effect. -/
def generateSummaryOnSuccess (s : JState) (sel : Option String) (resp : DailySummaryResp)
    (now : Nat) : JState :=
  let record : SummaryRecord := { summary := resp.summary, timestamp := now }
  match sel with
  | some d =>
    let s1 := { s with summaryCache := fun k => if k = d then some record else s.summaryCache k }
    let s2 := { s1 with dailySummary := some record, expanded := true }
    loadCachedEffect { s2 with summariesLoading := false, isGenerating := false }
  | none =>
    let s2 := { s with dailySummary := some record, expanded := true }
    { s2 with summariesLoading := false, isGenerating := false }

/-- Error message of the `catch` branch of the Journal page
`generateSummary`, built from the captured `selectedDate`. -/
def summaryErrorMessage (sel : Option String) (status : Nat) : String :=
  if status = 404 then
    "No journal entries found for " ++ sel.getD "today" ++ ". Please add some entries first."
  else
    "Unable to generate summary. Please try again."

/-- Continuation of `generateSummary` after a failed response: set the
error message, force-collapse the accordion, clear the loading flags.
The cache is not touched, so the effect does not re-run. -/
def generateSummaryOnError (s : JState) (sel : Option String) (status : Nat) : JState :=
  { s with summaryError := some (summaryErrorMessage sel status), expanded := false,
           summariesLoading := false, isGenerating := false }

/-- Accordion toggle handler `handleAccordionChange`: record the new
expansion state; on expansion serve the cached record for the selected
date when one exists (without consulting `shouldRegenerateSummary`) and
otherwise call `generateSummary`. -/
def handleAccordionChange (s : JState) (isExpanded : Bool) : JState :=
  let s1 := { s with expanded := isExpanded }
  if isExpanded then
    match s1.selectedDate with
    | some d =>
      match s1.summaryCache d with
      | some r => { s1 with dailySummary := some r }
      | none => generateSummaryIssue s1
    | none => generateSummaryIssue s1
  else s1

/-- Selection change (sidebar click routed through the App state): set
`selectedDate` and run the `[selectedDate, summaryCache]` effect; React
skips the effect when the dependency is unchanged. -/
def selectDate (s : JState) (d : Option String) : JState :=
  if d = s.selectedDate then s else loadCachedEffect { s with selectedDate := d }

/-- Effect on `[entries]`: rebuild `lastEntryUpdate`, stamping the IST
DateKey of every current entry with `Date.now()`. -/
def entriesChanged (s : JState) (dates : List String) (now : Nat) : JState :=
  { s with lastEntryUpdate := fun d => if d ∈ dates then some now else none }

/-- Remove the in-flight request at index `i` (its continuation has
run). -/
def removePending (s : JState) (i : Nat) : JState :=
  { s with pending := s.pending.eraseIdx i }

/-- User-interface and network events of the Journal page. -/
inductive JEvent where
  | accordion (isExpanded : Bool)
  | select (d : Option String)
  | completeOk (i : Nat) (resp : DailySummaryResp) (now : Nat)
  | completeErr (i : Nat) (status : Nat)
  | entriesUpd (dates : List String) (now : Nat)
deriving DecidableEq, Repr

/-- One step of the Journal page: completions address the in-flight
request at index `i` of `pending` and use the `selectedDate` it captured
at issue time. -/
def jStep (s : JState) : JEvent → JState
  | .accordion b => handleAccordionChange s b
  | .select d => selectDate s d
  | .completeOk i resp now =>
    match s.pending[i]? with
    | some sel => generateSummaryOnSuccess (removePending s i) sel resp now
    | none => s
  | .completeErr i status =>
    match s.pending[i]? with
    | some sel => generateSummaryOnError (removePending s i) sel status
    | none => s
  | .entriesUpd dates now => entriesChanged s dates now

/-- Run a sequence of events from a state. -/
def jRun (s : JState) (es : List JEvent) : JState :=
  es.foldl jStep s

/-- Response of a successful `/mood/summary/generate` call
(`DailyMoodSummary` in the API client); the numeric average and the
distribution are carried opaquely — the flow never computes with them. -/
structure DailyMoodSummaryResp where
  average_mood : Int
  mood_distribution : List (String × Nat)
  summary : String
deriving DecidableEq, Repr

/-- Cached mood summary: the response plus the `timestamp: Date.now()`
field added before the cache write. -/
structure MoodSummaryRecord where
  average_mood : Int
  mood_distribution : List (String × Nat)
  summary : String
  timestamp : Nat
deriving DecidableEq, Repr

/-- Component state of the Mood page: as the Journal page but without a
`lastEntryUpdate` map (the Mood page keeps no staleness data at all). -/
structure MState where
  selectedDate : Option String
  expanded : Bool
  summariesLoading : Bool
  isGenerating : Bool
  summaryError : Option String
  dailySummary : Option MoodSummaryRecord
  summaryCache : String → Option MoodSummaryRecord
  pending : List (Option String)
  issued : List (Option String)

/-- Initial state of the Mood page. -/
def mInit : MState :=
  { selectedDate := none, expanded := false, summariesLoading := false,
    isGenerating := false, summaryError := none, dailySummary := none,
    summaryCache := fun _ => none, pending := [], issued := [] }

/-- Mood-page effect on `[selectedDate, summaryCache]`, identical in
shape to the Journal one. -/
def moodLoadCachedEffect (s : MState) : MState :=
  match s.selectedDate with
  | some d =>
    match s.summaryCache d with
    | some r => { s with dailySummary := some r, expanded := true, isGenerating := false }
    | none => { s with dailySummary := none, expanded := false, isGenerating := false }
  | none => { s with dailySummary := none, expanded := false, isGenerating := false }

/-- Synchronous prefix of the Mood page `generateSummary` up to the
`await`. -/
def moodGenerateSummaryIssue (s : MState) : MState :=
  if s.isGenerating then s
  else
    { s with isGenerating := true, summariesLoading := true, summaryError := none,
             pending := s.pending ++ [s.selectedDate],
             issued := s.issued ++ [s.selectedDate] }

/-- Error message of the `catch` branch of the Mood page
`generateSummary`. -/
def moodSummaryErrorMessage (sel : Option String) (status : Nat) : String :=
  if status = 404 then
    "No mood entries found for " ++ sel.getD "today" ++ ". Please add some entries first."
  else
    "Unable to generate summary. Please try again."

/-- Continuation of the Mood page `generateSummary` after a successful
response. -/
def moodGenerateSummaryOnSuccess (s : MState) (sel : Option String)
    (resp : DailyMoodSummaryResp) (now : Nat) : MState :=
  let record : MoodSummaryRecord :=
    { average_mood := resp.average_mood, mood_distribution := resp.mood_distribution,
      summary := resp.summary, timestamp := now }
  match sel with
  | some d =>
    let s1 := { s with summaryCache := fun k => if k = d then some record else s.summaryCache k }
    let s2 := { s1 with dailySummary := some record, expanded := true }
    moodLoadCachedEffect { s2 with summariesLoading := false, isGenerating := false }
  | none =>
    let s2 := { s with dailySummary := some record, expanded := true }
    { s2 with summariesLoading := false, isGenerating := false }

/-- Continuation of the Mood page `generateSummary` after a failed
response: error message, force-collapse, loading flags cleared, cache
untouched. -/
def moodGenerateSummaryOnError (s : MState) (sel : Option String) (status : Nat) : MState :=
  { s with summaryError := some (moodSummaryErrorMessage sel status), expanded := false,
           summariesLoading := false, isGenerating := false }

/-- Mood page `handleAccordionChange`. -/
def moodHandleAccordionChange (s : MState) (isExpanded : Bool) : MState :=
  let s1 := { s with expanded := isExpanded }
  if isExpanded then
    match s1.selectedDate with
    | some d =>
      match s1.summaryCache d with
      | some r => { s1 with dailySummary := some r }
      | none => moodGenerateSummaryIssue s1
    | none => moodGenerateSummaryIssue s1
  else s1

/-- Mood page selection change with its effect. -/
def moodSelectDate (s : MState) (d : Option String) : MState :=
  if d = s.selectedDate then s else moodLoadCachedEffect { s with selectedDate := d }

/-- Events of the Mood page. -/
inductive MEvent where
  | accordion (isExpanded : Bool)
  | select (d : Option String)
  | completeOk (i : Nat) (resp : DailyMoodSummaryResp) (now : Nat)
  | completeErr (i : Nat) (status : Nat)
deriving DecidableEq, Repr

/-- One step of the Mood page. -/
def mStep (s : MState) : MEvent → MState
  | .accordion b => moodHandleAccordionChange s b
  | .select d => moodSelectDate s d
  | .completeOk i resp now =>
    match s.pending[i]? with
    | some sel => moodGenerateSummaryOnSuccess { s with pending := s.pending.eraseIdx i } sel resp now
    | none => s
  | .completeErr i status =>
    match s.pending[i]? with
    | some sel => moodGenerateSummaryOnError { s with pending := s.pending.eraseIdx i } sel status
    | none => s

lemma loadCachedEffect_fields (s : JState) :
    (loadCachedEffect s).summaryCache = s.summaryCache ∧
    (loadCachedEffect s).issued = s.issued ∧
    (loadCachedEffect s).pending = s.pending ∧
    (loadCachedEffect s).selectedDate = s.selectedDate := by
  unfold loadCachedEffect
  split
  · split <;> exact ⟨rfl, rfl, rfl, rfl⟩
  · exact ⟨rfl, rfl, rfl, rfl⟩

lemma generateSummaryOnSuccess_cache (s : JState) (a : String) (resp : DailySummaryResp)
    (now : Nat) :
    (generateSummaryOnSuccess s (some a) resp now).summaryCache
      = fun k => if k = a then some { summary := resp.summary, timestamp := now }
                 else s.summaryCache k := by
  unfold generateSummaryOnSuccess
  exact (loadCachedEffect_fields _).1

/-- C4: a late-arriving generation response is written into the cache
under the key its request captured at issue time, never under the
now-active key: completing the in-flight request that captured key `a`
sets exactly the cache entry for `a` and leaves the entry of every other
key unchanged, whatever `selectedDate` is at completion time. -/
theorem c4_response_under_issued_key (s : JState) (i : Nat) (a : String)
    (resp : DailySummaryResp) (now : Nat) (h : s.pending[i]? = some (some a)) :
    (jStep s (.completeOk i resp now)).summaryCache a
      = some { summary := resp.summary, timestamp := now } ∧
    ∀ k, k ≠ a → (jStep s (.completeOk i resp now)).summaryCache k = s.summaryCache k := by
  have hstep : jStep s (.completeOk i resp now)
      = generateSummaryOnSuccess (removePending s i) (some a) resp now := by
    simp [jStep, h]
  constructor
  · rw [hstep, generateSummaryOnSuccess_cache]
    simp
  · intro k hk
    rw [hstep, generateSummaryOnSuccess_cache]
    simp [hk, removePending]

/-- State in which the request captured for 15/01/2024 is still in
flight while the active key has moved on to 16/01/2024. -/
def c4PreState : JState :=
  jRun jInit [.select (some "15/01/2024"), .accordion true, .select (some "16/01/2024")]

/-- Witness for C4: the late response lands under 15/01/2024 and the
entry for the now-active 16/01/2024 is untouched. -/
theorem c4_response_under_issued_key_witness :
    (jStep c4PreState (.completeOk 0 ⟨"Good day"⟩ 7)).summaryCache "15/01/2024"
      = some { summary := "Good day", timestamp := 7 } ∧
    (jStep c4PreState (.completeOk 0 ⟨"Good day"⟩ 7)).summaryCache "16/01/2024"
      = c4PreState.summaryCache "16/01/2024" :=
  ⟨(c4_response_under_issued_key c4PreState 0 "15/01/2024" ⟨"Good day"⟩ 7 (by decide)).1,
   (c4_response_under_issued_key c4PreState 0 "15/01/2024" ⟨"Good day"⟩ 7 (by decide)).2
     "16/01/2024" (by decide)⟩

/-- C10: whenever a generation call fails — any status, 404 or other —
the summary cache of either page is left pointwise unchanged (no record
added, overwritten or removed for any key); the synchronous issue prefix
never touches the cache either. -/
theorem c10_cache_unchanged_on_failure (s : JState) (t : MState) (i status : Nat) :
    (jStep s (.completeErr i status)).summaryCache = s.summaryCache ∧
    (generateSummaryIssue s).summaryCache = s.summaryCache ∧
    (mStep t (.completeErr i status)).summaryCache = t.summaryCache ∧
    (moodGenerateSummaryIssue t).summaryCache = t.summaryCache := by
  refine ⟨?_, ?_, ?_, ?_⟩
  · simp only [jStep]
    cases h : s.pending[i]? <;> rfl
  · unfold generateSummaryIssue
    split <;> rfl
  · simp only [mStep]
    cases h : t.pending[i]? <;> rfl
  · unfold moodGenerateSummaryIssue
    split <;> rfl

/-- C3 (amended): the in-flight guard deduplicates requests only while
the selected date is unchanged: from any state that is not generating and
has no cached record for the selected date, a double expand-trigger in
rapid succession issues exactly one backend generation call (the second
trigger is ignored, not queued), and an expand while `isGenerating` never
issues a call. -/
theorem c3_single_flight_same_date (s : JState) (d : String)
    (hg : s.isGenerating = false) (hsel : s.selectedDate = some d)
    (hc : s.summaryCache d = none) :
    (jRun s [.accordion true, .accordion true]).issued = s.issued ++ [some d] ∧
    ∀ s2 : JState, s2.isGenerating = true → (jStep s2 (.accordion true)).issued = s2.issued := by
  constructor
  · simp only [jRun, List.foldl, jStep, handleAccordionChange, generateSummaryIssue,
      hsel, hc, hg]
    simp [hsel, hc, hg]
  · intro s2 hg2
    simp only [jStep, handleAccordionChange]
    cases hsel2 : s2.selectedDate with
    | none => simp [generateSummaryIssue, hg2]
    | some d2 =>
      cases hc2 : s2.summaryCache d2 with
      | none => simp [generateSummaryIssue, hg2, hc2]
      | some r => simp [hc2]

/-- Event trace in which the user expands for 15/01/2024, switches the
selection to 16/01/2024 and back while the first request is still in
flight, and expands again. -/
def c3Trace : List JEvent :=
  [.select (some "15/01/2024"), .accordion true, .select (some "16/01/2024"),
   .select (some "15/01/2024"), .accordion true]

/-- C3 (counterexample): the selection change resets the single
`isGenerating` flag while the first request is still pending, so the
second expand issues a second backend call for the same key — two
requests for 15/01/2024 are in flight at once, refuting the claim for
event sequences in which the selected date changes mid-flight. -/
theorem c3_counterexample :
    (jRun jInit c3Trace).pending = [some "15/01/2024", some "15/01/2024"] ∧
    (jRun jInit c3Trace).issued = [some "15/01/2024", some "15/01/2024"] ∧
    ¬ (jRun jInit c3Trace).pending.count (some "15/01/2024") ≤ 1 := by decide

/-- Witness for the amended C3 at a concrete reachable state: a double
expand for the freshly selected 15/01/2024 issues exactly one call. -/
theorem c3_single_flight_same_date_witness :
    (jRun (jRun jInit [.select (some "15/01/2024")]) [.accordion true, .accordion true]).issued
      = (jRun jInit [.select (some "15/01/2024")]).issued ++ [some "15/01/2024"] :=
  (c3_single_flight_same_date (jRun jInit [.select (some "15/01/2024")]) "15/01/2024"
    (by decide) (by decide) (by decide)).1

/-- Trace for C1: a summary for 15/01/2024 is generated and cached at
time 100, the panel is collapsed, and then an entry mutation for that
key is recorded at time 200. -/
def c1Trace : List JEvent :=
  [.select (some "15/01/2024"), .accordion true, .completeOk 0 ⟨"Nice day"⟩ 100,
   .accordion false, .entriesUpd ["15/01/2024"] 200]

/-- State reached by `c1Trace`: the cached record for 15/01/2024 is
stale by the staleness predicate itself. -/
def c1State : JState := jRun jInit c1Trace

/-- C1 (evaluation at the failing input): in `c1State` the predicate
`shouldRegenerateSummary` reports the cached record for 15/01/2024 stale
(mutation stamp 200 postdates generation time 100), yet re-expanding the
panel serves exactly that cached record and issues no backend call: the
read path `handleAccordionChange` consults `summaryCache` directly and
never invokes `shouldRegenerateSummary` (which has no call site), so the
cache does serve a record known to be stale. -/
theorem c1_stale_record_served :
    shouldRegenerateSummary c1State (some "15/01/2024") = true ∧
    c1State.summaryCache "15/01/2024" = some { summary := "Nice day", timestamp := 100 } ∧
    (jStep c1State (.accordion true)).dailySummary
      = some { summary := "Nice day", timestamp := 100 } ∧
    (jStep c1State (.accordion true)).issued = c1State.issued ∧
    c1State.issued = [some "15/01/2024"] := by decide

/-- C7 (amended): on a failed generation call both pages force-collapse
the panel; a 404 shows an informational message naming the captured date
(or "today") with the actual wordings — "No journal entries found for
..." on the Journal page and "No mood entries found for ..." on the Mood
page — and any other failure shows the generic retry message. -/
theorem c7_failure_handling (s : JState) (t : MState) (sel : Option String) (status : Nat) :
    (generateSummaryOnError s sel status).expanded = false ∧
    (moodGenerateSummaryOnError t sel status).expanded = false ∧
    (status = 404 → (generateSummaryOnError s sel status).summaryError
      = some ("No journal entries found for " ++ sel.getD "today"
          ++ ". Please add some entries first.")) ∧
    (status ≠ 404 → (generateSummaryOnError s sel status).summaryError
      = some "Unable to generate summary. Please try again.") ∧
    (status = 404 → (moodGenerateSummaryOnError t sel status).summaryError
      = some ("No mood entries found for " ++ sel.getD "today"
          ++ ". Please add some entries first.")) ∧
    (status ≠ 404 → (moodGenerateSummaryOnError t sel status).summaryError
      = some "Unable to generate summary. Please try again.") := by
  unfold generateSummaryOnError moodGenerateSummaryOnError
    summaryErrorMessage moodSummaryErrorMessage
  refine ⟨rfl, rfl, ?_, ?_, ?_, ?_⟩ <;> intro h <;> simp [h]

/-- C7 (counterexample): at a 404 for key 2024-01-20 the Journal page
shows "No journal entries found for 2024-01-20. Please add some entries
first." — not the exact message the claim quotes, which omits the word
"journal". -/
theorem c7_counterexample :
    (generateSummaryOnError jInit (some "2024-01-20") 404).summaryError
      ≠ some "No entries found for 2024-01-20. Please add some entries first." ∧
    (generateSummaryOnError jInit (some "2024-01-20") 404).summaryError
      = some "No journal entries found for 2024-01-20. Please add some entries first." ∧
    (generateSummaryOnError jInit (some "2024-01-20") 404).expanded = false := by decide

/-- Witness for the amended C7 at status 404 and 500 for key
2024-01-20. -/
theorem c7_failure_handling_witness :
    (generateSummaryOnError jInit (some "2024-01-20") 500).summaryError
      = some "Unable to generate summary. Please try again." ∧
    (moodGenerateSummaryOnError mInit (some "2024-01-20") 404).summaryError
      = some ("No mood entries found for " ++ (some "2024-01-20").getD "today"
          ++ ". Please add some entries first.") ∧
    (generateSummaryOnError jInit (some "2024-01-20") 500).expanded = false :=
  ⟨(c7_failure_handling jInit mInit (some "2024-01-20") 500).2.2.2.1 (by decide),
   (c7_failure_handling jInit mInit (some "2024-01-20") 404).2.2.2.2.1 rfl,
   (c7_failure_handling jInit mInit (some "2024-01-20") 500).1⟩

/-- Sidebar events that invoke `onDateSelect`: a click on a listed date,
or a click on the Today item (rendered only when no entry falls on the
current day of the viewer). -/
inductive SidebarEvent where
  | dateClick (d : String)
  | todayClick
deriving DecidableEq, Repr

/-- Sidebar `handleDateClick`: clicking the currently selected date
clears the selection, clicking any other date selects it. -/
def handleDateClick (selectedDate : Option String) (d : String) : Option String :=
  if selectedDate = some d then none else some d

/-- Selection after a sidebar event: `handleDateClick` for a date click;
the Today item calls `onDateSelect(null)`, and when `hasToday` is true
the item is not rendered so the event cannot occur (modelled as a
no-op). -/
def sidebarSelect (hasToday : Bool) (selectedDate : Option String) :
    SidebarEvent → Option String
  | .dateClick d => handleDateClick selectedDate d
  | .todayClick => if hasToday then selectedDate else none

/-- Formalization of the C9 claim that date clicks are the only event
path changing the selection. -/
def onlyDateClicksChangeSelection : Prop :=
  ∀ (hasToday : Bool) (sel : Option String) (e : SidebarEvent),
    sidebarSelect hasToday sel e ≠ sel → ∃ d, e = SidebarEvent.dateClick d

/-- C9 (counterexample): with 15/01/2024 selected and no entries for
today, clicking the sidebar Today item changes the selection to null,
and it is not a date click — so the date-click toggle is not the only
event path changing the selection. -/
theorem c9_counterexample : ¬ onlyDateClicksChangeSelection := by
  intro h
  rcases h false (some "15/01/2024") .todayClick (by decide) with ⟨d, hd⟩
  exact SidebarEvent.noConfusion hd

/-- C9 (amended): clicking a date toggles the selection — the currently
selected date clears it to null, any other date selects it — and the
only other selection-changing path is the Today item, rendered only when
no entries fall on today, which clears the selection to null. -/
theorem c9_selection_toggle (hasToday : Bool) (sel : Option String) (d : String) :
    (sel = some d → sidebarSelect hasToday sel (.dateClick d) = none) ∧
    (sel ≠ some d → sidebarSelect hasToday sel (.dateClick d) = some d) ∧
    (hasToday = false → sidebarSelect hasToday sel .todayClick = none) ∧
    (hasToday = true → sidebarSelect hasToday sel .todayClick = sel) := by
  refine ⟨?_, ?_, ?_, ?_⟩ <;> intro h <;>
    simp [sidebarSelect, handleDateClick, h]

/-- Witness for the amended C9: toggling 15/01/2024 off, selecting
16/01/2024 from it, and the Today item clearing the selection. -/
theorem c9_selection_toggle_witness :
    sidebarSelect false (some "15/01/2024") (.dateClick "15/01/2024") = none ∧
    sidebarSelect false (some "15/01/2024") (.dateClick "16/01/2024") = some "16/01/2024" ∧
    sidebarSelect false (some "15/01/2024") .todayClick = none :=
  ⟨(c9_selection_toggle false (some "15/01/2024") "15/01/2024").1 rfl,
   (c9_selection_toggle false (some "15/01/2024") "16/01/2024").2.1 (by decide),
   (c9_selection_toggle false (some "15/01/2024") "15/01/2024").2.2.1 rfl⟩

/-- JS `String.prototype.split(c)` over the characters of a string:
splits into the (possibly empty) runs between occurrences of `c`. -/
def splitOnChar (c : Char) : List Char → List (List Char)
  | [] => [[]]
  | x :: xs =>
    if x = c then [] :: splitOnChar c xs
    else
      match splitOnChar c xs with
      | [] => [[x]]
      | h :: t => (x :: h) :: t

lemma splitOnChar_not_mem {c : Char} : ∀ {xs : List Char}, c ∉ xs →
    splitOnChar c xs = [xs] := by
  intro xs
  induction xs with
  | nil => intro _; rfl
  | cons x xs ih =>
    intro h
    have hx : ¬ x = c := fun hc => h (hc ▸ List.mem_cons_self x xs)
    have hxs : c ∉ xs := fun hc => h (List.mem_cons_of_mem x hc)
    simp only [splitOnChar, if_neg hx, ih hxs]

lemma splitOnChar_append {c : Char} {ys : List Char} : ∀ {xs : List Char}, c ∉ xs →
    splitOnChar c (xs ++ c :: ys) = xs :: splitOnChar c ys := by
  intro xs
  induction xs with
  | nil => intro _; simp [splitOnChar]
  | cons x xs ih =>
    intro h
    have hx : ¬ x = c := fun hc => h (hc ▸ List.mem_cons_self x xs)
    have hxs : c ∉ xs := fun hc => h (List.mem_cons_of_mem x hc)
    simp only [List.cons_append, splitOnChar, if_neg hx, List.append_eq, ih hxs]

/-- API-client date reformatting `date.split('/').reverse().join('-')`,
common to `generateDailySummary` and `generateMoodSummary`. -/
def formatDateParam (date : List Char) : List Char :=
  List.intercalate ['-'] (splitOnChar '/' date).reverse

/-- Date transmitted by `generateDailySummary` as the `date` query
parameter of `/summary/generate`: the reformatted date when an argument
is given; with a null argument no date parameter is sent and the backend
summarizes today. -/
def dailySummaryQueryDate (date : Option (List Char)) : Option (List Char) :=
  date.map formatDateParam

/-- Date field `generateMoodSummary` places in the body of
`/mood/summary/generate`: the reformatted date, or null for today. -/
def moodSummaryBodyDate (date : Option (List Char)) : Option (List Char) :=
  date.map formatDateParam

/-- C8: for every display-format date string DD/MM/YYYY (slash-free
components), the API client transmits YYYY-MM-DD built from the same
three components by pure string reformatting — no timezone shift touches
them — and a null date argument transmits no date at all, for both the
daily and the mood summary calls. -/
theorem c8_date_normalization (dd mm yyyy : List Char)
    (hd : '/' ∉ dd) (hm : '/' ∉ mm) (hy : '/' ∉ yyyy) :
    formatDateParam (dd ++ ('/' :: (mm ++ ('/' :: yyyy)))) = yyyy ++ ('-' :: (mm ++ ('-' :: dd))) ∧
    dailySummaryQueryDate (some (dd ++ ('/' :: (mm ++ ('/' :: yyyy)))))
      = some (yyyy ++ ('-' :: (mm ++ ('-' :: dd)))) ∧
    moodSummaryBodyDate (some (dd ++ ('/' :: (mm ++ ('/' :: yyyy)))))
      = some (yyyy ++ ('-' :: (mm ++ ('-' :: dd)))) ∧
    dailySummaryQueryDate none = none ∧
    moodSummaryBodyDate none = none := by
  have hsplit : splitOnChar '/' (dd ++ ('/' :: (mm ++ ('/' :: yyyy)))) = [dd, mm, yyyy] := by
    rw [splitOnChar_append hd, splitOnChar_append hm, splitOnChar_not_mem hy]
  have hmain : formatDateParam (dd ++ ('/' :: (mm ++ ('/' :: yyyy))))
      = yyyy ++ ('-' :: (mm ++ ('-' :: dd))) := by
    rw [formatDateParam, hsplit]
    simp [List.intercalate, List.intersperse, List.flatten]
  exact ⟨hmain, by simp [dailySummaryQueryDate, hmain],
    by simp [moodSummaryBodyDate, hmain], rfl, rfl⟩

/-- Witness for C8: 15/01/2024 is transmitted as 2024-01-15. -/
theorem c8_date_normalization_witness :
    formatDateParam ['1', '5', '/', '0', '1', '/', '2', '0', '2', '4']
      = ['2', '0', '2', '4', '-', '0', '1', '-', '1', '5'] ∧
    dailySummaryQueryDate none = none :=
  ⟨(c8_date_normalization ['1', '5'] ['0', '1'] ['2', '0', '2', '4']
      (by decide) (by decide) (by decide)).1,
   (c8_date_normalization ['1', '5'] ['0', '1'] ['2', '0', '2', '4']
      (by decide) (by decide) (by decide)).2.2.2.1⟩

/-- Witness for C6 at the spec §8 scenario lists. -/
theorem c6_entry_filter_witness :
    getSelectedDateEntries none [c5e1, c5e3] = [c5e1, c5e3] ∧
    (c5e1 ∈ getSelectedDateEntries (some 19737) [c5e1, c5e3] ↔
      c5e1 ∈ [c5e1, c5e3] ∧ dateKeyIST c5e1.created_at = 19737) :=
  ⟨(c6_entry_filter [c5e1, c5e3] [] 19737).1,
   (c6_entry_filter [c5e1, c5e3] [] 19737).2.2.2.1 c5e1⟩

/-- State with a request for 15/01/2024 in flight and an empty cache. -/
def c10State : JState := jRun jInit [.select (some "15/01/2024"), .accordion true]

/-- Witness for C10: failing the in-flight request leaves the whole
cache as it was (here: still empty at the requested key). -/
theorem c10_cache_unchanged_on_failure_witness :
    (jStep c10State (.completeErr 0 404)).summaryCache = c10State.summaryCache ∧
    (jStep c10State (.completeErr 0 404)).summaryCache "15/01/2024" = none :=
  ⟨(c10_cache_unchanged_on_failure c10State mInit 0 404).1,
   by rw [(c10_cache_unchanged_on_failure c10State mInit 0 404).1]; rfl⟩
